import Mathlib

/-!
Verification of the WhatsApp webhook ingestion pipeline of this repository:
the data model (`app/models.py`), the storage service
(`app/services/database_service.py`), the AI response service
(`app/services/gemini_service.py`), the webhook handler
(`app/utils/whatsapp_utils.py`), the signature decorator
(`app/decorators/security.py`) and the HTTP route (`app/routes.py`).

The embedding is a shallow one: the ORM session is modelled as an explicit
`Store` of persisted rows threaded through each operation, wall-clock
reads (`datetime.utcnow()`) are supplied as explicit `Nat` timestamps,
UUID primary keys are modelled as `Nat` identifiers, and the external
collaborators (the Gemini model call and the outbound WhatsApp send) are
modelled as parameters and as entries of an effect trace.

Python exception semantics are modelled explicitly: an operation that
raises an uncaught exception returns `Except.error` with the store it
leaves behind.  This matters throughout, because every model class in
`models.py` defines an explicit `__init__` whose signature the service
layer violates: `Message.__init__` (models.py line 78) rejects the
`timestamp`/`meta_message_id` keywords `record_message` passes,
`Conversation.__init__` (line 61) rejects `started_at`/`updated_at`/
`status`, `Company.__init__` (line 23) rejects `created_at`/`updated_at`,
`WhatsappUser.__init__` (line 41) rejects `created_at`/`updated_at` (and
the service spells the class `WhatsAppUser`, a name `app.models` does not
bind), `ConversionEvent.__init__` (line 98) requires `user_id` and
`company_id` that `record_conversion_event` omits, and
`BotStatistic.__init__` (line 125) rejects every counter keyword
`get_bot_statistic_for_company` passes.  The service handlers catch only
`SQLAlchemyError`, so each of these `TypeError`s propagates: every create
branch is modelled as `Except.error PyErr.typeError` with the store
unchanged (nothing was added or committed before the constructor raised).
Environmental database failures (a lost connection making a healthy query
raise `SQLAlchemyError`) are outside the model: queries over declared
columns are modelled as succeeding.
-/

namespace Zappies

/-! ### Character-level string helpers

Executable models of the Python primitives the source uses:
`needle in haystack` on strings (contiguous substring),
`str.lower()` (restricted to ASCII, which covers every keyword in the
source) and `str.split("=")`.  They are written over `List Char` so that
every proof obligation reduces in the kernel. -/

/-- Model of Python list/str leading-segment matching: `b` starts with `a`. -/
def listStartsWith : List Char → List Char → Bool
  | [], _ => true
  | _ :: _, [] => false
  | a :: as, b :: bs => a == b && listStartsWith as bs

/-- Model of the Python expression `needle in haystack` for strings:
contiguous substring test (the empty needle is contained everywhere). -/
def listContainsSub (needle : List Char) : List Char → Bool
  | [] => needle.isEmpty
  | b :: bs => listStartsWith needle (b :: bs) || listContainsSub needle bs

/-- Model of Python `str.split("=")`: splits on every occurrence of the
separator, keeping empty groups, and yields one group even for the empty
string. -/
def splitOnEq : List Char → List (List Char)
  | [] => [[]]
  | c :: cs =>
      match splitOnEq cs with
      | [] => [[c]]
      | g :: gs => if c = '=' then [] :: g :: gs else (c :: g) :: gs

/-- ASCII lower-casing of one character, as Python `str.lower()` acts on
the ASCII range (all keywords and identifiers in the source are ASCII). -/
def charLowerAscii (c : Char) : Char :=
  if 65 ≤ c.toNat ∧ c.toNat ≤ 90 then Char.ofNat (c.toNat + 32) else c

/-- Model of Python `str.lower()` on ASCII text. -/
def toLowerAscii (s : String) : String :=
  String.mk (s.toList.map charLowerAscii)

/-- A Python runtime error relevant to this code: `TypeError` (constructor
signature violations, unpacking a non-iterable), `KeyError` (missing dict
key), `AttributeError` (reading an attribute a class does not declare),
`ImportError` (a from-import of a name the source module does not bind). -/
inductive PyErr where
  | typeError
  | keyError
  | attributeError
  | importError
deriving Repr, DecidableEq

deriving instance DecidableEq for Except

/-! ### Data model

Persisted rows, following the columns `app/models.py` declares.  Pure
audit timestamps that no embedded operation ever reads back
(`created_at` / `updated_at` / `first_interaction_at` /
`last_interaction_at` / `start_time` as written by no reachable code /
`end_time` / `last_updated`) are omitted; every column an embedded
operation reads or writes is present.  In particular `Message` carries
exactly the declared columns — there is **no** `meta_message_id` column
(and no unique constraint beyond the primary key), even though
`database_service.record_message` tries to write one and
`has_meta_message_id_been_processed` tries to query one. -/

/-- A `companies` row (`models.py` lines 10-27). -/
structure Company where
  id : Nat
  name : String
deriving Repr, DecidableEq

/-- A `whatsapp_users` row (`models.py` lines 29-47). -/
structure WhatsappUser where
  id : Nat
  waId : String
  companyId : Nat
  name : String
deriving Repr, DecidableEq

/-- A `conversations` row (`models.py` lines 49-66): id, user id, company
id, start time and status are the claim-relevant declared columns. -/
structure Conversation where
  id : Nat
  userId : Nat
  companyId : Nat
  startTime : Nat
  status : String
deriving Repr, DecidableEq

/-- A `messages` row (`models.py` lines 68-85), exactly the declared
columns: no `meta_message_id` exists in the schema. -/
structure Message where
  id : Nat
  conversationId : Nat
  senderType : String
  timestamp : Nat
  content : String
  responseToMessageId : Option Nat
deriving Repr, DecidableEq

/-- A `conversion_events` row (`models.py` lines 87-107), with the
non-nullable `user_id` and `company_id` columns and the optional
`details`/`sales_agent_id` — the columns whose required values
`record_conversion_event` fails to supply. -/
structure ConversionEvent where
  id : Nat
  conversationId : Nat
  userId : Nat
  companyId : Nat
  eventType : String
  timestamp : Nat
  details : Option String
  salesAgentId : Option String
deriving Repr, DecidableEq

/-- A `bot_statistics` row (`models.py` lines 109-135), with the declared
counter columns: `conversions`, `total_user_response_time` (a float
column modelled as a `Nat` magnitude; no embedded operation ever
successfully reads or writes it), `user_response_count` and
`num_recipients`.  Note the service update functions address different
names (`total_recipients`, `total_conversions`, `total_messages`,
`avg_response_time_ms`) that this class does not declare. -/
structure BotStatistic where
  id : Nat
  companyId : Nat
  conversions : Nat
  totalUserResponseTime : Nat
  userResponseCount : Nat
  numRecipients : Nat
deriving Repr, DecidableEq

/-- The persisted database state: one list of rows per table, plus the
allocator for fresh primary keys (UUIDs in the source — abstract, unique,
stable identifiers, which a counter models faithfully). -/
structure Store where
  companies : List Company
  users : List WhatsappUser
  conversations : List Conversation
  messages : List Message
  events : List ConversionEvent
  stats : List BotStatistic
  nextId : Nat
deriving Repr, DecidableEq

/-- The empty database. -/
def emptyStore : Store :=
  { companies := [], users := [], conversations := [], messages := [],
    events := [], stats := [], nextId := 0 }

/-! ### Storage service (`app/services/database_service.py`)

Each operation returns `Except PyErr` paired with the store it leaves
behind.  `Except.error` models an uncaught Python exception propagating
out of the function; in every such case nothing was added to the session
before the raise, so the store is unchanged. -/

/-- `get_or_create_company` (`database_service.py` lines 20-35): find a
company by name and return it; in the create branch the call
`Company(name=..., created_at=..., updated_at=...)` (line 25) raises
`TypeError` — `Company.__init__` (models.py line 23) takes `name` only —
which the `except SQLAlchemyError` handler does not catch, so the
function raises and nothing is inserted. -/
def getOrCreateCompany (st : Store) (name : String) :
    Except PyErr Company × Store :=
  match st.companies.find? (fun c => c.name == name) with
  | some c => (Except.ok c, st)
  | none => (Except.error PyErr.typeError, st)

/-- `get_or_create_default_company` (`database_service.py` lines 37-42). -/
def getOrCreateDefaultCompany (st : Store) : Except PyErr Company × Store :=
  getOrCreateCompany st "My Bot Company"

/-- `get_or_create_whatsapp_user` (`database_service.py` lines 45-66):
look up by `(wa_id, company_id)`; if found with a different display name,
update the stored name and commit (the `updated_at` assignment creates a
transient non-column attribute and persists nothing).  The create branch
(line 50) raises: the module-level import already binds no `WhatsAppUser`
(`app.models` spells it `WhatsappUser`, an `ImportError` at module load),
and the constructor call would in any case pass `created_at`/`updated_at`
keywords `WhatsappUser.__init__` (models.py line 41) rejects — an
uncaught `TypeError`.  Either way the branch raises and inserts nothing;
modelled as `TypeError`. -/
def getOrCreateWhatsappUser (st : Store) (waId name : String)
    (companyId : Nat) : Except PyErr WhatsappUser × Store :=
  match st.users.find? (fun u => u.waId == waId && u.companyId == companyId) with
  | some u =>
      if u.name ≠ name then
        (Except.ok { u with name := name },
         { st with users :=
            st.users.map (fun x => if x.id == u.id then { u with name := name } else x) })
      else (Except.ok u, st)
  | none => (Except.error PyErr.typeError, st)

/-- `get_or_create_conversation` (`database_service.py` lines 69-96):
find the conversation with status `active` for `(user_id, company_id)`
and return it (the found branch assigns `updated_at`, a non-column
attribute, and commits — no declared column changes).  The create branch
(lines 76-82) raises `TypeError`: `Conversation.__init__` (models.py
line 61) takes `user_id` and `company_id` only, while the call passes
`started_at`, `updated_at` and `status`; uncaught, so the function
raises and no conversation is ever created. -/
def getOrCreateConversation (st : Store) (now : Nat)
    (userId companyId : Nat) : Except PyErr Conversation × Store :=
  match st.conversations.find?
      (fun k => k.userId == userId && k.companyId == companyId && k.status == "active") with
  | some k => (Except.ok k, st)
  | none => (Except.error PyErr.typeError, st)

/-- `has_meta_message_id_been_processed` (`database_service.py` lines
117-134): a falsy id returns `False` (lines 122-123); otherwise
`Message.query.filter_by(meta_message_id=...)` addresses a column the
`Message` model does not declare, so SQLAlchemy raises
`InvalidRequestError` — a `SQLAlchemyError` subclass, caught at line 129
— and the function returns `False`.  The pre-check therefore never
reports any id as processed; no code calls it anyway. -/
def hasMetaMessageIdBeenProcessed (st : Store) (metaMessageId : String) : Bool :=
  if metaMessageId = "" then false else false

/-- `record_message` (`database_service.py` lines 138-158): the call
`Message(conversation_id=..., sender_type=..., content=...,
response_to_message_id=..., timestamp=..., meta_message_id=...)` (lines
141-148) raises `TypeError` — `Message.__init__` (models.py line 78)
accepts neither `timestamp` nor `meta_message_id` — before
`db.session.add` runs; the `except SQLAlchemyError` handler does not
catch it.  So every call raises, persists nothing, and returns nothing:
modelled as a constant `TypeError` with the store unchanged. -/
def recordMessage (st : Store) (now : Nat) (conversationId : Nat)
    (senderType content : String) (responseToMessageId : Option Nat)
    (metaMessageId : Option String) : Except PyErr Message × Store :=
  (Except.error PyErr.typeError, st)

/-- `record_conversion_event` (`database_service.py` lines 184-202): the
call `ConversionEvent(conversation_id=..., event_type=..., details=...,
timestamp=...)` (lines 187-192) raises `TypeError` —
`ConversionEvent.__init__` (models.py line 98) requires `user_id` and
`company_id`, which the call omits, and accepts no `timestamp` keyword —
uncaught by `except SQLAlchemyError`.  Every call raises and no event row
is ever appended. -/
def recordConversionEvent (st : Store) (now : Nat) (conversationId : Nat)
    (eventType : String) (details : List (String × String)) :
    Except PyErr ConversionEvent × Store :=
  (Except.error PyErr.typeError, st)

/-- `get_bot_statistic_for_company` (`database_service.py` lines 205-218):
find the statistics row for the company and return it; the create branch
(line 210) raises `TypeError` — `BotStatistic.__init__` (models.py line
125) takes `company_id` only, while the call passes `total_messages`,
`total_recipients`, `total_conversions`, `avg_response_time_ms`,
`created_at` and `updated_at` — uncaught. -/
def getBotStatisticForCompany (st : Store) (companyId : Nat) :
    Except PyErr BotStatistic × Store :=
  match st.stats.find? (fun s => s.companyId == companyId) with
  | some s => (Except.ok s, st)
  | none => (Except.error PyErr.typeError, st)

/-- `update_bot_statistic_recipients` (`database_service.py` lines
255-269): after resolving the statistics row, `stats.total_recipients
+= 1` (line 260) reads an attribute `BotStatistic` does not declare (the
schema names it `num_recipients`), raising `AttributeError`, which the
`except SQLAlchemyError` handler does not catch; when the row is absent
the nested create raises `TypeError` first.  The counter is therefore
never incremented — and nothing in the repository calls this function. -/
def updateBotStatisticRecipients (st : Store) (companyId : Nat) :
    Except PyErr Bool × Store :=
  match getBotStatisticForCompany st companyId with
  | (Except.error e, st') => (Except.error e, st')
  | (Except.ok _, st') => (Except.error PyErr.attributeError, st')

/-! ### Conversation history for the AI collaborator -/

/-- One role-tagged turn of the context handed to the Gemini collaborator:
a `{"role": ..., "parts": [...]}` dictionary. -/
structure GeminiMsg where
  role : String
  parts : List String
deriving Repr, DecidableEq

/-- Stable insertion of a message into a list that is sorted by ascending
timestamp, keeping insertion order among equal timestamps. -/
def insertByTimestamp (m : Message) : List Message → List Message
  | [] => [m]
  | x :: xs =>
      if x.timestamp ≤ m.timestamp then x :: insertByTimestamp m xs
      else m :: x :: xs

/-- The `ORDER BY timestamp ASC` of the history query
(`database_service.py` line 170), as a stable insertion sort. -/
def sortByTimestamp : List Message → List Message
  | [] => []
  | m :: ms => insertByTimestamp m (sortByTimestamp ms)

/-- The messages persisted for one conversation, in insertion order. -/
def convMessages (st : Store) (conversationId : Nat) : List Message :=
  st.messages.filter (fun m => m.conversationId == conversationId)

/-- The role mapping of `get_conversation_history_for_gemini`
(`database_service.py` line 174): sender type `user` maps to role `user`,
everything else to role `model`. -/
def toGeminiMsg (m : Message) : GeminiMsg :=
  { role := if m.senderType == "user" then "user" else "model", parts := [m.content] }

/-- `get_conversation_history_for_gemini` (`database_service.py` lines
160-181): the conversation messages ordered by timestamp ascending, each
mapped to a role-tagged turn.  The query touches only declared columns,
so it succeeds. -/
def getConversationHistoryForGemini (st : Store) (conversationId : Nat) :
    List GeminiMsg :=
  (sortByTimestamp (convMessages st conversationId)).map toGeminiMsg

/-! ### AI response service (`app/services/gemini_service.py`)

The external model call (`self.model.generate_content`, line 348) is a
collaborator: it is a parameter `genContent` that either returns the
generated text or raises (`Except.error`).  The persona primer
(`self.primer_messages`) is externally supplied prompt text and is a
parameter as well. -/

/-- The static string returned when the model object is `None`
(`gemini_service.py` line 327). -/
def modelUnavailableText : String :=
  "I apologize, the AI model is currently unavailable."

/-- The static fallback returned when the collaborator call raises
(`gemini_service.py` line 353). -/
def fallbackText : String :=
  "I'm \x73orry, I couldn't generate a response at this moment. Please try again."

/-- The context list built by `generate_response` (`gemini_service.py`
lines 330-343): the primer, then — when a conversation id is supplied
(Python truthiness: the id `0` models `None`/falsy) and the fetched
history is non-empty — the stored history, then the current user message
as the final turn. -/
def geminiContext (primer : List GeminiMsg) (st : Store) (conversationId : Nat)
    (userMessage : String) : List GeminiMsg :=
  let contents := primer
  let contents :=
    if conversationId ≠ 0 then
      let h := getConversationHistoryForGemini st conversationId
      if h.isEmpty then contents else contents ++ h
    else contents
  contents ++ [{ role := "user", parts := [userMessage] }]

/-- `GeminiService.generate_response` (`gemini_service.py` lines 320-353):
if the model failed to initialise return the static unavailable text; else
build the context, invoke the collaborator, and return its text — or the
static fallback if it raises. -/
def generateResponse (primer : List GeminiMsg) (modelAvailable : Bool)
    (genContent : List GeminiMsg → Except String String)
    (st : Store) (conversationId : Nat) (userMessage : String) : String :=
  if !modelAvailable then modelUnavailableText
  else
    match genContent (geminiContext primer st conversationId userMessage) with
    | .ok t => t
    | .error _ => fallbackText

/-! ### Webhook handler (`app/utils/whatsapp_utils.py`) -/

/-- `MEETING_KEYWORDS` (`whatsapp_utils.py` lines 46-50). -/
def MEETING_KEYWORDS : List String :=
  ["schedule meeting", "book a meeting", "talk to sales",
   "book a call", "want the product", "yes", "i'm interested",
   "book now", "meeting", "sales"]

/-- The keyword loop of the handler (`whatsapp_utils.py` lines 206-220):
the first keyword, in list order, contained in the lower-cased body. -/
def firstMeetingKeyword (lowerBody : String) : Option String :=
  MEETING_KEYWORDS.find? (fun kw => listContainsSub kw.toList lowerBody.toList)

/-- The reply sent when a meeting keyword matched but `CALENDLY_LINK` is
unset (`whatsapp_utils.py` line 210). -/
def noLinkReplyText : String :=
  "I understand you'd like to schedule a meeting. However, I'm currently unable to provide a booking link. Please try again later or contact support directly."

/-- The handover reply carrying the booking link (`whatsapp_utils.py`
lines 212-216). -/
def calendlyReplyText (link : String) : String :=
  "Great! I can help you schedule a meeting with one of our sales consultants.\n\nPlease use this link to book a time that works best for you:\n"
    ++ link ++ "\n\nOur team looks forward to speaking with you!"

/-- The reply used when the AI service is unavailable (`whatsapp_utils.py`
line 300). -/
def offlineReplyText : String :=
  "I apologize, but my AI is currently offline. I cannot process your request."

/-- The `details` dictionary recorded with the handover conversion event
(`whatsapp_utils.py` line 217). -/
def handoverEventDetails (body link : String) : List (String × String) :=
  [("user_intent", body), ("calendly_link_provided", link)]

/-- One call the handler makes to a collaborator or to the message
ledger, in execution order.  `recordEventCall` / `recordUserCall` /
`recordBotCall` mark the `record_conversion_event` / `record_message`
call sites (the call is marked when control reaches it, whether or not
the callee then raises), `aiInvoked` the Gemini call, `sendCall` the
outbound WhatsApp send. -/
inductive Action where
  | recordEventCall (eventType : String)
  | recordUserCall (content metaMessageId : String)
  | recordBotCall (content : String)
  | aiInvoked
  | sendCall (phoneNumberId toNumber text : String)
deriving Repr, DecidableEq

/-- The handler environment: the configured booking link
(`CALENDLY_LINK`, `None` when unset), whether the Gemini service and its
model initialised (`ai_enabled`, `whatsapp_utils.py` lines 146-149), the
external model call, and the persona primer. -/
structure Env where
  calendlyLink : Option String
  aiEnabled : Bool
  genContent : List GeminiMsg → Except String String
  primer : List GeminiMsg

/-- One inbound text message, with the fields the handler extracts from
the webhook payload (`whatsapp_utils.py` lines 166-169, 198). -/
structure InboundTextMessage where
  fromNumber : String
  userName : String
  metaMessageId : String
  phoneNumberId : String
  body : String
deriving Repr, DecidableEq

/-- The destructuring call sites `recorded_user_message, is_duplicate =
record_message(...)` (`whatsapp_utils.py` lines 224 and 280).
`record_message` itself always raises (see `recordMessage`), and that
exception propagates before any unpacking happens; were it ever to return
its single `Message`-or-`None` value, the two-name unpack would raise
`TypeError` as well, since neither a `Message` nor `None` is a pair.  The
`Except.ok` branch below models that second layer; it is unreachable. -/
def recordMessageCalled (st : Store) (now : Nat) (conversationId : Nat)
    (senderType content : String) (responseToMessageId : Option Nat)
    (metaMessageId : Option String) : Except PyErr (Message × Bool) × Store :=
  match recordMessage st now conversationId senderType content
      responseToMessageId metaMessageId with
  | (Except.error e, st') => (Except.error e, st')
  | (Except.ok _, st') => (Except.error PyErr.typeError, st')

/-- `process_whatsapp_message` (`whatsapp_utils.py` lines 141-320) on one
inbound text message, following the source statement for statement:
database setup (company, user, conversation — an exception from any of
them propagates), then the meeting-keyword handover branch (conversion
event and link reply, lines 202-228), else the AI branch (record the user
message, invoke Gemini, record the bot reply, send it, lines 278-314).
The value is `Except.ok` of the `(body, status)` pair the handler
returns, or `Except.error` of the exception it propagates, together with
the resulting store and the trace of ledger/collaborator calls reached.
The branches downstream of a `record_message` or
`record_conversion_event` return are written out faithfully from the
source, but they are dead code: those callees always raise. -/
def processTextMessage (env : Env) (st : Store) (now : Nat)
    (msg : InboundTextMessage) :
    Except PyErr (String × Nat) × Store × List Action :=
  match getOrCreateDefaultCompany st with
  | (Except.error e, st1) => (Except.error e, st1, [])
  | (Except.ok company, st1) =>
    match getOrCreateWhatsappUser st1 msg.fromNumber msg.userName company.id with
    | (Except.error e, st2) => (Except.error e, st2, [])
    | (Except.ok user, st2) =>
      match getOrCreateConversation st2 now user.id company.id with
      | (Except.error e, st3) => (Except.error e, st3, [])
      | (Except.ok conversation, st3) =>
        match firstMeetingKeyword (toLowerAscii msg.body) with
        | some _kw =>
            match env.calendlyLink with
            | none =>
                let tr := [Action.recordUserCall msg.body msg.metaMessageId]
                match recordMessageCalled st3 now conversation.id "user" msg.body
                    Option.none (Option.some msg.metaMessageId) with
                | (Except.error e, st4) => (Except.error e, st4, tr)
                | (Except.ok rm, st4) =>
                    if rm.2 then
                      (Except.ok ("Failed to record or duplicate", 200), st4, tr)
                    else
                      let tr2 := tr ++ [Action.recordBotCall noLinkReplyText]
                      match recordMessage st4 now conversation.id "bot" noLinkReplyText
                          (Option.some rm.1.id) Option.none with
                      | (Except.error e, st5) => (Except.error e, st5, tr2)
                      | (Except.ok _, st5) =>
                          (Except.ok ("Handover message processed", 200), st5,
                           tr2 ++ [Action.sendCall msg.phoneNumberId msg.fromNumber
                             noLinkReplyText])
            | some link =>
                let trE := [Action.recordEventCall "meeting_scheduled_calendly"]
                match recordConversionEvent st3 now conversation.id
                    "meeting_scheduled_calendly" (handoverEventDetails msg.body link) with
                | (Except.error e, st4) => (Except.error e, st4, trE)
                | (Except.ok _, st4) =>
                    let tr := trE ++ [Action.recordUserCall msg.body msg.metaMessageId]
                    match recordMessageCalled st4 now conversation.id "user" msg.body
                        Option.none (Option.some msg.metaMessageId) with
                    | (Except.error e, st5) => (Except.error e, st5, tr)
                    | (Except.ok rm, st5) =>
                        if rm.2 then
                          (Except.ok ("Failed to record or duplicate", 200), st5, tr)
                        else
                          let reply := calendlyReplyText link
                          let tr2 := tr ++ [Action.recordBotCall reply]
                          match recordMessage st5 now conversation.id "bot" reply
                              (Option.some rm.1.id) Option.none with
                          | (Except.error e, st6) => (Except.error e, st6, tr2)
                          | (Except.ok _, st6) =>
                              (Except.ok ("Handover message processed", 200), st6,
                               tr2 ++ [Action.sendCall msg.phoneNumberId msg.fromNumber
                                 reply])
        | none =>
            let tr := [Action.recordUserCall msg.body msg.metaMessageId]
            match recordMessageCalled st3 now conversation.id "user" msg.body
                Option.none (Option.some msg.metaMessageId) with
            | (Except.error e, st4) => (Except.error e, st4, tr)
            | (Except.ok rm, st4) =>
                if rm.2 then
                  (Except.ok ("Message already processed", 200), st4, tr)
                else
                  let bt :=
                    if env.aiEnabled then
                      (generateResponse env.primer true env.genContent st4
                        conversation.id msg.body, tr ++ [Action.aiInvoked])
                    else (offlineReplyText, tr)
                  let tr2 := bt.2 ++ [Action.recordBotCall bt.1]
                  match recordMessage st4 now conversation.id "bot" bt.1
                      (Option.some rm.1.id) Option.none with
                  | (Except.error e, st5) => (Except.error e, st5, tr2)
                  | (Except.ok _, st5) =>
                      (Except.ok ("Message processed", 200), st5,
                       tr2 ++ [Action.sendCall msg.phoneNumberId msg.fromNumber bt.1])

/-- Sequential processing of a list of webhook deliveries (the provider
redelivers the same event under at-least-once semantics), accumulating
the store and the trace. -/
def processAll (env : Env) (msgs : List InboundTextMessage) (now : Nat)
    (st : Store) : Store × List Action :=
  match msgs with
  | [] => (st, [])
  | m :: rest =>
      let r := processTextMessage env st now m
      let r' := processAll env rest now r.2.1
      (r'.1, r.2.2 ++ r'.2)

/-- How many Gemini invocations a trace contains. -/
def countAiInvocations (tr : List Action) : Nat :=
  (tr.filter (fun a => a == Action.aiInvoked)).length

/-- How many outbound sends a trace contains. -/
def countSends (tr : List Action) : Nat :=
  (tr.filter (fun a => match a with | .sendCall _ _ _ => true | _ => false)).length

/-! ### Event classifier (`get_whatsapp_message_type`)

The webhook payload is an arbitrarily-shaped parsed JSON value, so the
classifier is embedded over a model of Python values whose semantics
can fail: operations that raise in Python (`in` on a non-container,
iteration over a non-iterable, subscripting a non-dict with a string key)
return an `Except.error`. -/

/-- A parsed JSON payload as a Python value. -/
inductive PyVal where
  | none
  | bool (b : Bool)
  | int (n : Int)
  | str (s : String)
  | list (xs : List PyVal)
  | dict (kvs : List (String × PyVal))

/-- Python `key in v` for a string key: key membership on a dict,
element equality on a list (a non-string element never equals a string),
substring test on a string, `TypeError` otherwise. -/
def pyContains (key : String) : PyVal → Except PyErr Bool
  | .dict kvs => .ok (kvs.any (fun kv => kv.1 == key))
  | .list xs => .ok (xs.any (fun x => match x with | .str s => s == key | _ => false))
  | .str s => .ok (listContainsSub key.toList s.toList)
  | _ => .error .typeError

/-- Python `v[key]` for a string key: dict lookup (`KeyError` when
absent), `TypeError` on anything else (list and string indices must be
integers). -/
def pyGetItem (v : PyVal) (key : String) : Except PyErr PyVal :=
  match v with
  | .dict kvs =>
      match kvs.find? (fun kv => kv.1 == key) with
      | some kv => .ok kv.2
      | none => .error .keyError
  | _ => .error .typeError

/-- Python `for x in v`: the elements of a list, the single-character
strings of a string, the keys of a dict, `TypeError` otherwise. -/
def pyIter : PyVal → Except PyErr (List PyVal)
  | .list xs => .ok xs
  | .str s => .ok (s.toList.map (fun c => .str (String.mk [c])))
  | .dict kvs => .ok (kvs.map (fun kv => .str kv.1))
  | _ => .error .typeError

/-- The message-type whitelist of `get_whatsapp_message_type`
(`whatsapp_utils.py` line 68). -/
def knownMessageTypes : List String :=
  ["text", "image", "audio", "button", "reaction", "interactive", "video",
   "document", "sticker", "location", "contacts", "order", "system", "unknown"]

/-- The inner loop over `change['value']['messages']`
(`whatsapp_utils.py` lines 67-69): return the first message type found in
the whitelist. -/
def scanMessages : List PyVal → Except PyErr (Option String)
  | [] => pure Option.none
  | m :: rest => do
      let hasType ← pyContains "type" m
      if hasType then
        let t ← pyGetItem m "type"
        match t with
        | .str s => if s ∈ knownMessageTypes then pure (Option.some s) else scanMessages rest
        | _ => scanMessages rest
      else scanMessages rest

/-- The body handling one `change['value']` (`whatsapp_utils.py` lines
66-71): a `messages` key leads to the inner message scan, else a
`statuses` key classifies as `status`. -/
def scanValue (v : PyVal) : Except PyErr (Option String) := do
  let hasMessages ← pyContains "messages" v
  if hasMessages then do
    let ms ← pyGetItem v "messages"
    let l ← pyIter ms
    scanMessages l
  else do
    let hasStatuses ← pyContains "statuses" v
    if hasStatuses then pure (Option.some "status") else pure Option.none

/-- The loop over `entry['changes']` (`whatsapp_utils.py` lines 64-71). -/
def scanChanges : List PyVal → Except PyErr (Option String)
  | [] => pure Option.none
  | c :: rest => do
      let hasValue ← pyContains "value" c
      if hasValue then do
        let v ← pyGetItem c "value"
        let r ← scanValue v
        match r with
        | Option.some s => pure (Option.some s)
        | Option.none => scanChanges rest
      else scanChanges rest

/-- The loop over `data['entry']` (`whatsapp_utils.py` lines 62-71). -/
def scanEntries : List PyVal → Except PyErr (Option String)
  | [] => pure Option.none
  | e :: rest => do
      let hasChanges ← pyContains "changes" e
      if hasChanges then do
        let chs ← pyGetItem e "changes"
        let l ← pyIter chs
        let r ← scanChanges l
        match r with
        | Option.some s => pure (Option.some s)
        | Option.none => scanEntries rest
      else scanEntries rest

/-- `get_whatsapp_message_type` (`whatsapp_utils.py` lines 54-72): reject
non-dicts as `unsupported`; when both `object` and `entry` keys are
present, walk the nested `entry`/`changes`/`value`/`messages` structure
and return the first recognised message type, `status` for a receipts
payload, `unsupported` when nothing matches — and a Python runtime error
when a present nested field has the wrong shape. -/
def getWhatsappMessageType (data : PyVal) : Except PyErr String :=
  match data with
  | .dict kvs =>
      if kvs.any (fun kv => kv.1 == "object") && kvs.any (fun kv => kv.1 == "entry") then do
        let e ← pyGetItem data "entry"
        let l ← pyIter e
        let r ← scanEntries l
        pure (match r with | Option.some s => s | Option.none => "unsupported")
      else pure "unsupported"
  | _ => pure "unsupported"

/-- Whether the payload lacks the shape the classifier requires before it
walks nested fields: not a dict, or missing the `object` or `entry` key. -/
def lacksRequiredKeys (d : PyVal) : Bool :=
  match d with
  | .dict kvs => !(kvs.any (fun kv => kv.1 == "object") && kvs.any (fun kv => kv.1 == "entry"))
  | _ => true

/-! ### Signature verification (`app/decorators/security.py`) and the
POST route (`app/routes.py`)

The HMAC-SHA256 primitive (`hmac.new(...).hexdigest()`) is an external
collaborator and is a parameter `mac` from secret and raw body bytes to a
hex digest; `hmac.compare_digest` is modelled functionally as equality
(its constant-time execution is a timing property outside a functional
embedding). -/

/-- The abort statuses of `signature_required` and the pass-through. -/
def signatureRequired (mac : String → List Nat → List Char)
    (appSecret : Option String) (signatureHeader : Option String)
    (rawBody : List Nat) : Except Nat Unit :=
  match appSecret with
  | none => .error 500
  | some s =>
      if s = "" then .error 500
      else
        match signatureHeader with
        | none => .error 400
        | some h =>
            if h.toList = [] then .error 400
            else
              match splitOnEq h.toList with
              | [shaName, signature] =>
                  if shaName ≠ "sha256".toList then .error 400
                  else if mac s rawBody = signature then .ok () else .error 403
              | _ => .error 400

/-- The names bound at the top level of `app/utils/whatsapp_utils.py`:
its imports (lines 3-22) and its module-level assignments and function
definitions (lines 24-320).  No `is_valid_whatsapp_message` is among
them. -/
def whatsappUtilsModuleBindings : List String :=
  ["logging", "json", "requests", "os", "time", "mimetypes", "datetime",
   "timedelta", "load_dotenv", "Image", "io",
   "get_or_create_default_company", "get_or_create_whatsapp_user",
   "get_or_create_conversation", "record_message", "record_conversion_event",
   "GeminiService", "logger", "ACCESS_TOKEN", "GRAPH_API_URL",
   "CALENDLY_LINK", "gemini_service", "MEETING_KEYWORDS",
   "get_whatsapp_message_type", "get_media_url", "download_media",
   "send_whatsapp_message", "process_whatsapp_message"]

/-- The names `app/routes.py` (line 4) imports from
`app.utils.whatsapp_utils`. -/
def routesImportsFromWhatsappUtils : List String :=
  ["process_whatsapp_message", "is_valid_whatsapp_message"]

/-- Loading `app/routes.py`: a Python `from M import n` raises
`ImportError` when `n` is not bound in module `M`.  (The chain fails even
earlier: importing `app.utils.whatsapp_utils` pulls in
`app.services.database_service`, whose own `from app.models import ...
WhatsAppUser ...` names a binding `app.models` does not have — it spells
the class `WhatsappUser`.)  Either way the module never loads, so the
`whatsapp_blueprint` routes, `webhook_post` among them, are never
registered. -/
def importRoutesModule : Except PyErr Unit :=
  if routesImportsFromWhatsappUtils.all
      (fun n => whatsappUtilsModuleBindings.contains n) then
    Except.ok ()
  else Except.error PyErr.importError

/-- The decorators applied to `webhook_post` in the source (`routes.py`
line 31): only the blueprint route registration.  `signature_required`
appears nowhere on it (nor on any other function in the repository). -/
def webhookPostDecorators : List String := ["whatsapp_blueprint.route"]

/-- The names `app/services/database_service.py` (line 4) imports from
`app.models`, and the names `app/models.py` binds at top level: the
from-import requests `WhatsAppUser`, which `app.models` does not bind (it
defines `WhatsappUser`), so loading `database_service` raises
`ImportError`. -/
def appModelsBindings : List String :=
  ["SQLAlchemy", "datetime", "uuid", "db", "Company", "WhatsappUser",
   "Conversation", "Message", "ConversionEvent", "BotStatistic"]

/-- The from-import list of `database_service.py` line 4. -/
def databaseServiceImportsFromModels : List String :=
  ["db", "Company", "WhatsAppUser", "Conversation", "Message",
   "ConversionEvent", "BotStatistic"]

/-- Loading `app/services/database_service.py` (see
`databaseServiceImportsFromModels`). -/
def importDatabaseServiceModule : Except PyErr Unit :=
  if databaseServiceImportsFromModels.all
      (fun n => appModelsBindings.contains n) then
    Except.ok ()
  else Except.error PyErr.importError

/-! ### Concrete fixtures used by the concrete evaluations below -/

/-- An environment with no booking link configured, a working AI model
and an empty persona primer. -/
def env0 : Env :=
  { calendlyLink := Option.none, aiEnabled := true,
    genContent := fun _ => .ok "Sure, happy to help!", primer := [] }

/-- An environment with the booking link configured. -/
def envLink : Env :=
  { calendlyLink := Option.some "https://calendly.example/30min",
    aiEnabled := true, genContent := fun _ => .ok "Sure, happy to help!",
    primer := [] }

/-- An environment whose collaborator call raises. -/
def envAiFail : Env :=
  { calendlyLink := Option.none, aiEnabled := true,
    genContent := fun _ => Except.error "rate limited", primer := [] }

/-- An inbound text message whose body matches no meeting keyword. -/
def msg0 : InboundTextMessage :=
  { fromNumber := "27820000001", userName := "Thandi",
    metaMessageId := "wamid.ABC123", phoneNumberId := "1035550001",
    body := "hello there" }

/-- An inbound text message whose body matches the meeting keywords. -/
def msgMeeting : InboundTextMessage :=
  { fromNumber := "27820000001", userName := "Thandi",
    metaMessageId := "wamid.MEET1", phoneNumberId := "1035550001",
    body := "I want to book a meeting" }

/-- A store in which the default company, the sender and an active
conversation already exist, so that the handler reaches its recording
steps instead of crashing earlier in the company/user/conversation
create branches. -/
def storeReady : Store :=
  { companies := [{ id := 1, name := "My Bot Company" }],
    users := [{ id := 2, waId := "27820000001", companyId := 1, name := "Thandi" }],
    conversations :=
      [{ id := 3, userId := 2, companyId := 1, startTime := 0, status := "active" }],
    messages := [], events := [], stats := [], nextId := 10 }

/-- A store holding one zeroed statistics row for company 7, so that a
recipients increment would be observable. -/
def storeWithStat : Store :=
  { emptyStore with
    stats := [{ id := 50, companyId := 7, conversions := 0,
                totalUserResponseTime := 0, userResponseCount := 0,
                numRecipients := 0 }],
    nextId := 60 }

/-- A store whose conversation 1 holds two messages inserted out of
timestamp order (the later timestamp first), to exercise the explicit
history sort. -/
def storeSkewed : Store :=
  { emptyStore with
    messages :=
      [{ id := 10, conversationId := 1, senderType := "user", timestamp := 9,
         content := "second", responseToMessageId := Option.none },
       { id := 11, conversationId := 1, senderType := "bot", timestamp := 4,
         content := "first", responseToMessageId := Option.none }],
    nextId := 12 }

/-- The conversations of a store that hold a given user/company pair with
status `active` (the filter of `get_or_create_conversation`). -/
def activeConvsFor (st : Store) (userId companyId : Nat) : List Conversation :=
  st.conversations.filter
    (fun k => k.userId == userId && k.companyId == companyId && k.status == "active")

/-- At most one active conversation exists per (user, company) pair. -/
def atMostOneActive (st : Store) : Prop :=
  ∀ u c, (activeConvsFor st u c).length ≤ 1

/-- Timestamp order on messages. -/
def timestampLE (a b : Message) : Prop := a.timestamp ≤ b.timestamp

/-- A concrete stand-in for the HMAC collaborator, used to instantiate
the signature-verification theorems. -/
def macConst : String → List Nat → List Char := fun _ _ => ['a', 'b', 'c']

/-! ### Helper lemmas -/

/-- A list of length at most one has equal members. -/
theorem eq_of_length_le_one {α : Type} {l : List α} (h : l.length ≤ 1)
    {a b : α} (ha : a ∈ l) (hb : b ∈ l) : a = b := by
  cases l with
  | nil => cases ha
  | cons x xs =>
      cases xs with
      | nil => rw [List.mem_singleton.mp ha, List.mem_singleton.mp hb]
      | cons y t => simp only [List.length_cons] at h; omega

/-- Stable insertion produces a permutation. -/
theorem insertByTimestamp_perm (m : Message) (l : List Message) :
    List.Perm (insertByTimestamp m l) (m :: l) := by
  induction l with
  | nil => exact List.Perm.refl _
  | cons x xs ih =>
      unfold insertByTimestamp
      by_cases h : x.timestamp ≤ m.timestamp
      · simp only [if_pos h]
        exact (ih.cons x).trans (List.Perm.swap m x xs)
      · simp only [if_neg h]
        exact List.Perm.refl _

/-- Membership after stable insertion. -/
theorem mem_insertByTimestamp {y m : Message} {l : List Message} :
    y ∈ insertByTimestamp m l ↔ y = m ∨ y ∈ l :=
  (insertByTimestamp_perm m l).mem_iff.trans List.mem_cons

/-- Stable insertion preserves sortedness by timestamp. -/
theorem pairwise_insertByTimestamp (m : Message) {l : List Message}
    (h : List.Pairwise timestampLE l) :
    List.Pairwise timestampLE (insertByTimestamp m l) := by
  induction l with
  | nil => simp [insertByTimestamp, timestampLE]
  | cons x xs ih =>
      rcases List.pairwise_cons.mp h with ⟨hx, hxs⟩
      unfold insertByTimestamp
      by_cases hle : x.timestamp ≤ m.timestamp
      · simp only [if_pos hle]
        refine List.pairwise_cons.mpr ⟨?_, ih hxs⟩
        intro y hy
        rcases mem_insertByTimestamp.mp hy with rfl | hy'
        · exact hle
        · exact hx y hy'
      · simp only [if_neg hle]
        refine List.pairwise_cons.mpr ⟨?_, h⟩
        intro y hy
        rcases List.mem_cons.mp hy with rfl | hy'
        · exact Nat.le_of_not_le hle
        · exact Nat.le_trans (Nat.le_of_not_le hle) (hx y hy')

/-- The history sort produces a permutation of its input. -/
theorem sortByTimestamp_perm (l : List Message) :
    List.Perm (sortByTimestamp l) l := by
  induction l with
  | nil => exact List.Perm.refl _
  | cons m ms ih => exact (insertByTimestamp_perm m (sortByTimestamp ms)).trans (ih.cons m)

/-- The history sort is sorted by ascending timestamp. -/
theorem sortByTimestamp_pairwise :
    ∀ l : List Message, List.Pairwise timestampLE (sortByTimestamp l) := by
  intro l
  induction l with
  | nil => exact List.Pairwise.nil
  | cons m ms ih => exact pairwise_insertByTimestamp m ih

/-- `splitOnEq` never returns the empty list of groups. -/
theorem splitOnEq_ne_nil : ∀ l : List Char, splitOnEq l ≠ [] := by
  intro l
  cases l with
  | nil => simp [splitOnEq]
  | cons c cs =>
      unfold splitOnEq
      cases h : splitOnEq cs with
      | nil => simp
      | cons g gs => by_cases hc : c = '=' <;> simp [hc]

/-- Splitting a separator-free string yields one group. -/
theorem splitOnEq_no_sep : ∀ l : List Char, '=' ∉ l → splitOnEq l = [l] := by
  intro l
  induction l with
  | nil => intro _; rfl
  | cons c cs ih =>
      intro h
      have hc : c ≠ '=' := fun hc => h (hc ▸ List.mem_cons_self c cs)
      have hcs : '=' ∉ cs := fun hm => h (List.mem_cons_of_mem c hm)
      simp only [splitOnEq, ih hcs]
      simp [hc]

/-- Splitting around the first separator. -/
theorem splitOnEq_append (l t : List Char) (h : '=' ∉ l) :
    splitOnEq (l ++ '=' :: t) = l :: splitOnEq t := by
  induction l with
  | nil =>
      show splitOnEq ('=' :: t) = [] :: splitOnEq t
      cases ht : splitOnEq t with
      | nil => exact absurd ht (splitOnEq_ne_nil t)
      | cons g gs =>
          simp only [splitOnEq, ht]
          simp
  | cons c cs ih =>
      have hc : c ≠ '=' := fun hc => h (hc ▸ List.mem_cons_self c cs)
      have hcs : '=' ∉ cs := fun hm => h (List.mem_cons_of_mem c hm)
      show splitOnEq (c :: (cs ++ '=' :: t)) = (c :: cs) :: splitOnEq t
      simp only [splitOnEq, ih hcs]
      simp [hc]

/-- Reduction of the default-company resolution when the company row
exists. -/
theorem getOrCreateDefaultCompany_found {st : Store} {c : Company}
    (h : st.companies.find? (fun x => x.name == "My Bot Company") = Option.some c) :
    getOrCreateDefaultCompany st = (Except.ok c, st) := by
  simp [getOrCreateDefaultCompany, getOrCreateCompany, h]

/-- Reduction of the user resolution when the user row exists and the
display name is unchanged. -/
theorem getOrCreateWhatsappUser_found_same {st : Store} {waId name : String}
    {cid : Nat} {u : WhatsappUser}
    (h : st.users.find? (fun x => x.waId == waId && x.companyId == cid) = Option.some u)
    (hn : u.name = name) :
    getOrCreateWhatsappUser st waId name cid = (Except.ok u, st) := by
  simp [getOrCreateWhatsappUser, h, hn]

/-- Reduction of the conversation resolution when an active conversation
exists for the pair. -/
theorem getOrCreateConversation_found {st : Store} {now uid cid : Nat}
    {k : Conversation}
    (h : st.conversations.find?
      (fun x => x.userId == uid && x.companyId == cid && x.status == "active")
      = Option.some k) :
    getOrCreateConversation st now uid cid = (Except.ok k, st) := by
  simp [getOrCreateConversation, h]

/-- The conversation resolution never changes the store: the found
branch persists nothing and the create branch raises before inserting. -/
theorem getOrCreateConversation_store (st : Store) (now uid cid : Nat) :
    (getOrCreateConversation st now uid cid).2 = st := by
  cases h : st.conversations.find?
      (fun x => x.userId == uid && x.companyId == cid && x.status == "active") with
  | some k => simp [getOrCreateConversation, h]
  | none => simp [getOrCreateConversation, h]

/-! ### The claims -/

/-- C1: the spec and the call sites demand idempotent ingestion — N
deliveries of the same provider message id must yield exactly one Message
row, one AI invocation and one outbound reply, with `record_message`
reporting redeliveries as duplicates.  Evaluating the pipeline at the
failing input — the same text event delivered twice into a store where
company, user and conversation already exist — shows the code does none
of this: each delivery raises `TypeError` inside `record_message`
(`Message.__init__` rejects the `timestamp`/`meta_message_id` keywords,
and the line-224/280 pair-destructure could not succeed even if a value
were returned), so zero rows are recorded, the AI is invoked zero times,
zero replies are sent, and the dedup pre-check — querying a column the
schema lacks — can never report any id as processed. -/
theorem c1_duplicate_delivery_double_processing :
    (processAll env0 [msg0, msg0] 5 storeReady).1.messages.length = 0 ∧
    countAiInvocations (processAll env0 [msg0, msg0] 5 storeReady).2 = 0 ∧
    countSends (processAll env0 [msg0, msg0] 5 storeReady).2 = 0 ∧
    (processTextMessage env0 storeReady 5 msg0).1 = Except.error PyErr.typeError ∧
    (∀ st m, hasMetaMessageIdBeenProcessed st m = false) := by
  refine ⟨by decide, by decide, by decide, by decide, fun st m => ?_⟩
  simp [hasMetaMessageIdBeenProcessed]

/-- C2: the spec demands a storage-layer uniqueness constraint on the
provider message id.  The schema of `models.py` declares no
`meta_message_id` column at all — the embedded `Message` row carries
exactly the declared columns — and the only writer that receives a
provider id, `record_message`, raises `TypeError` on every call and
persists nothing, while the only reader,
`has_meta_message_id_been_processed`, constantly answers `false`: no
storage-layer uniqueness of provider message ids exists or is even
expressible against this schema. -/
theorem c2_no_storage_layer_uniqueness :
    (∀ (st : Store) (now cid : Nat) (sender content : String)
       (respTo : Option Nat) (metaId : Option String),
       recordMessage st now cid sender content respTo metaId
         = (Except.error PyErr.typeError, st)) ∧
    (∀ st m, hasMetaMessageIdBeenProcessed st m = false) ∧
    (recordMessage storeReady 0 3 "user" "hi" Option.none
       (Option.some "wamid.X")).2.messages = [] := by
  refine ⟨fun st now cid sender content respTo metaId => rfl,
    fun st m => ?_, by decide⟩
  simp [hasMetaMessageIdBeenProcessed]

/-- C3 counterexample: the claim says every POST /webhook request is
authenticated via the HMAC signature before the handler body runs; but
`webhook_post` carries only the route-registration decorator — no
signature check guards it — and `routes.py` cannot even be imported,
because `app.utils.whatsapp_utils` binds no `is_valid_whatsapp_message`,
so the route is never registered and no request is ever verified. -/
theorem c3_post_route_never_verifies_signature :
    webhookPostDecorators.contains "signature_required" = false ∧
    whatsappUtilsModuleBindings.contains "is_valid_whatsapp_message" = false ∧
    importRoutesModule = Except.error PyErr.importError := by
  decide

/-- C4: the spec demands that an inbound message that fails to record
yields a non-2xx response so the provider redelivers.  The code never
reaches a recording outcome at all: on the AI path it raises `TypeError`
inside `record_message` while recording the inbound message, and on the
meeting-keyword handover path it raises already inside
`record_conversion_event`; in both cases the handler propagates the
exception instead of returning any `(body, status)` pair, persists
nothing, and its intended failure guard (line 225 — which would answer
200 on the handover path, itself contradicting the claim) is unreachable
dead code. -/
theorem c4_record_failure_no_http_status :
    (processTextMessage envLink storeReady 5 msg0).1
      = Except.error PyErr.typeError ∧
    (processTextMessage envLink storeReady 5 msg0).2.1.messages = [] ∧
    (processTextMessage envLink storeReady 5 msgMeeting).1
      = Except.error PyErr.typeError ∧
    (processTextMessage envLink storeReady 5 msgMeeting).2.1.messages = [] ∧
    (processTextMessage envLink storeReady 5 msgMeeting).2.1.events = [] := by
  decide

/-- C5 counterexample: the claim says that when no active conversation
exists one is created with status `active` and the current timestamp;
instead the create branch raises `TypeError` (`Conversation.__init__`
takes `user_id` and `company_id` only, while the call passes
`started_at`, `updated_at` and `status`) and no conversation is
created. -/
theorem c5_create_branch_raises :
    getOrCreateConversation emptyStore 5 1 2
      = (Except.error PyErr.typeError, emptyStore) := by
  decide

/-- C6 counterexample: a payload whose `entry` field is present but has
the wrong shape (an integer, over which the classifier iterates) raises
`TypeError` instead of classifying as unsupported. -/
theorem c6_classifier_raises_on_malformed_entry :
    getWhatsappMessageType
      (PyVal.dict [("object", PyVal.str "whatsapp_business_account"),
                   ("entry", PyVal.int 42)]) = Except.error PyErr.typeError := by
  decide

/-- C8 counterexample: the claim says that when the collaborator raises,
a bot Message row carrying the fallback is still recorded and the handler
returns 200; instead the handler crashes with `TypeError` while recording
the inbound message — before the AI is ever invoked — so no bot row
exists, nothing is sent, and no 200 is returned. -/
theorem c8_no_bot_row_recorded_on_ai_failure :
    (processTextMessage envAiFail storeReady 5 msg0).1
      = Except.error PyErr.typeError ∧
    (processTextMessage envAiFail storeReady 5 msg0).2.1.messages = [] ∧
    (processTextMessage envAiFail storeReady 5 msg0).2.2
      = [Action.recordUserCall "hello there" "wamid.ABC123"] ∧
    countAiInvocations (processTextMessage envAiFail storeReady 5 msg0).2.2 = 0 := by
  decide

/-- C9 counterexample: the claim says an absent user is created and a
new-recipient increment is triggered; instead the create branch raises
`TypeError` creating nothing, and `update_bot_statistic_recipients` —
which nothing calls anyway — itself raises `AttributeError` on a present
statistics row (the class declares `num_recipients`, not
`total_recipients`), leaving the counter untouched. -/
theorem c9_user_creation_no_recipient_increment :
    getOrCreateWhatsappUser emptyStore "27820000001" "Thandi" 7
      = (Except.error PyErr.typeError, emptyStore) ∧
    updateBotStatisticRecipients storeWithStat 7
      = (Except.error PyErr.attributeError, storeWithStat) ∧
    importDatabaseServiceModule = Except.error PyErr.importError := by
  decide

/-- C10 counterexample: the claim says each matching delivery records an
additional ConversionEvent row; instead `record_conversion_event` raises
`TypeError` on every call (`ConversionEvent.__init__` requires `user_id`
and `company_id`, which the call omits, and accepts no `timestamp`
keyword), so even two deliveries of a keyword-matching message with the
booking link configured append zero event rows. -/
theorem c10_no_conversion_event_recorded :
    recordConversionEvent storeReady 5 3 "meeting_scheduled_calendly"
      (handoverEventDetails "I want to book a meeting" "https://calendly.example/30min")
      = (Except.error PyErr.typeError, storeReady) ∧
    (processTextMessage envLink storeReady 5 msgMeeting).2.1.events = [] ∧
    (processAll envLink [msgMeeting, msgMeeting] 5 storeReady).1.events = [] := by
  decide

/-- C6 amended: the classifier never raises — and classifies as
unsupported — whenever the payload is not a dict or lacks the required
`object`/`entry` keys; only a present nested field of the wrong shape
raises (see the counterexample). -/
theorem c6_unsupported_on_missing_required_paths (d : PyVal)
    (h : lacksRequiredKeys d = true) :
    getWhatsappMessageType d = Except.ok "unsupported" := by
  cases d with
  | dict kvs =>
      simp only [lacksRequiredKeys, Bool.not_eq_true'] at h
      simp only [getWhatsappMessageType, h]
      rfl
  | none => rfl
  | bool b => rfl
  | int n => rfl
  | str s => rfl
  | list xs => rfl

/-- C6 witness: a non-dict payload is classified unsupported without an
exception. -/
theorem c6_witness :
    lacksRequiredKeys (PyVal.str "not a webhook") = true ∧
    getWhatsappMessageType (PyVal.str "not a webhook") = Except.ok "unsupported" :=
  ⟨by decide, c6_unsupported_on_missing_required_paths (PyVal.str "not a webhook") (by decide)⟩

/-- C3 amended: the `signature_required` decorator implements the claimed
semantics — missing secret yields 500, missing header 400, a signature
computed over a different body 403 (compared with `hmac.compare_digest`,
modelled functionally), a matching signature passes — but no POST
/webhook request is ever authenticated by it: `webhook_post` carries
only the route-registration decorator, and `routes.py` fails to import
at all (it requests `is_valid_whatsapp_message` from
`app.utils.whatsapp_utils`, which binds no such name), so the route
never comes into service. -/
theorem c3_decorator_semantics_route_unprotected :
    (∀ mac sig body, signatureRequired mac Option.none sig body = Except.error 500) ∧
    (∀ mac s body, s ≠ "" →
      signatureRequired mac (Option.some s) Option.none body = Except.error 400) ∧
    (∀ mac s body t, s ≠ "" → '=' ∉ t → t ≠ mac s body →
      signatureRequired mac (Option.some s)
        (Option.some (String.mk ("sha256".toList ++ '=' :: t))) body = Except.error 403) ∧
    (∀ mac s body, s ≠ "" → '=' ∉ mac s body →
      signatureRequired mac (Option.some s)
        (Option.some (String.mk ("sha256".toList ++ '=' :: mac s body))) body
        = Except.ok ()) ∧
    webhookPostDecorators.contains "signature_required" = false ∧
    importRoutesModule = Except.error PyErr.importError := by
  refine ⟨fun mac sig body => rfl, ?_, ?_, ?_, by decide, by decide⟩
  · intro mac s body hs
    simp [signatureRequired, hs]
  · intro mac s body t hs ht hne
    have hl : (String.mk ("sha256".toList ++ '=' :: t)).toList
        = "sha256".toList ++ '=' :: t := rfl
    have hsplit : splitOnEq ("sha256".toList ++ '=' :: t) = ["sha256".toList, t] := by
      rw [splitOnEq_append "sha256".toList t (by decide), splitOnEq_no_sep t ht]
    have hne' : ¬(mac s body = t) := fun hh => hne hh.symm
    simp only [signatureRequired, hl, hsplit]
    simp [hs, hne']
  · intro mac s body hs hmac
    have hl : (String.mk ("sha256".toList ++ '=' :: mac s body)).toList
        = "sha256".toList ++ '=' :: mac s body := rfl
    have hsplit : splitOnEq ("sha256".toList ++ '=' :: mac s body)
        = ["sha256".toList, mac s body] := by
      rw [splitOnEq_append "sha256".toList (mac s body) (by decide),
        splitOnEq_no_sep (mac s body) hmac]
    simp only [signatureRequired, hl, hsplit]
    simp [hs]

/-- C3 witness: the decorator semantics at a concrete secret, body and
collaborator digest — missing header 400, wrong signature 403, correct
signature accepted. -/
theorem c3_witness :
    signatureRequired macConst (Option.some "k") Option.none [7] = Except.error 400 ∧
    signatureRequired macConst (Option.some "k")
      (Option.some (String.mk ("sha256".toList ++ '=' :: ['d']))) [7] = Except.error 403 ∧
    signatureRequired macConst (Option.some "k")
      (Option.some (String.mk ("sha256".toList ++ '=' :: macConst "k" [7]))) [7]
      = Except.ok () :=
  ⟨c3_decorator_semantics_route_unprotected.2.1 macConst "k" [7] (by decide),
   c3_decorator_semantics_route_unprotected.2.2.1 macConst "k" [7] ['d']
     (by decide) (by decide) (by decide),
   c3_decorator_semantics_route_unprotected.2.2.2.1 macConst "k" [7]
     (by decide) (by decide)⟩

/-- C5 amended: conversation resolution returns the existing active
conversation of the pair when one exists — so a second resolution yields
the same conversation, and with at most one active conversation per pair
in the store the returned one is unique — but when none exists it raises
`TypeError` instead of creating one, leaving the store unchanged; the
at-most-one-active invariant persists trivially because the function
never inserts. -/
theorem c5_conversation_reuse_create_raises (st : Store) (now now2 u c : Nat)
    (hinv : atMostOneActive st) :
    (∀ k, st.conversations.find?
        (fun x => x.userId == u && x.companyId == c && x.status == "active")
        = Option.some k →
      getOrCreateConversation st now u c = (Except.ok k, st) ∧
      (getOrCreateConversation st now2 u c).1 = Except.ok k ∧
      k.status = "active" ∧ k.userId = u ∧ k.companyId = c ∧
      (∀ j ∈ st.conversations, j.status = "active" → j.userId = u →
        j.companyId = c → k = j)) ∧
    (st.conversations.find?
        (fun x => x.userId == u && x.companyId == c && x.status == "active")
        = Option.none →
      getOrCreateConversation st now u c = (Except.error PyErr.typeError, st)) ∧
    atMostOneActive (getOrCreateConversation st now u c).2 := by
  refine ⟨?_, ?_, ?_⟩
  · intro k h
    have hkp := List.find?_some h
    have hk : k.userId = u ∧ k.companyId = c ∧ k.status = "active" := by
      simpa [Bool.and_eq_true, beq_iff_eq, and_assoc] using hkp
    refine ⟨by simp [getOrCreateConversation, h],
      by simp [getOrCreateConversation, h], hk.2.2, hk.1, hk.2.1, ?_⟩
    intro j hj hjs hju hjc
    have hkf : k ∈ activeConvsFor st u c :=
      List.mem_filter.mpr ⟨List.mem_of_find?_eq_some h, hkp⟩
    have hjf : j ∈ activeConvsFor st u c :=
      List.mem_filter.mpr ⟨hj, by simp [hju, hjc, hjs]⟩
    exact eq_of_length_le_one (hinv u c) hkf hjf
  · intro h
    simp [getOrCreateConversation, h]
  · rw [getOrCreateConversation_store]
    exact hinv

/-- C5 witness: against a store with one active conversation for the
pair, resolution returns it, twice, and the invariant is kept; at the
empty store the create branch raises. -/
theorem c5_witness :
    atMostOneActive storeReady ∧
    ((∀ k, storeReady.conversations.find?
        (fun x => x.userId == 2 && x.companyId == 1 && x.status == "active")
        = Option.some k →
      getOrCreateConversation storeReady 5 2 1 = (Except.ok k, storeReady) ∧
      (getOrCreateConversation storeReady 7 2 1).1 = Except.ok k ∧
      k.status = "active" ∧ k.userId = 2 ∧ k.companyId = 1 ∧
      (∀ j ∈ storeReady.conversations, j.status = "active" → j.userId = 2 →
        j.companyId = 1 → k = j)) ∧
    (storeReady.conversations.find?
        (fun x => x.userId == 2 && x.companyId == 1 && x.status == "active")
        = Option.none →
      getOrCreateConversation storeReady 5 2 1 = (Except.error PyErr.typeError, storeReady)) ∧
    atMostOneActive (getOrCreateConversation storeReady 5 2 1).2) := by
  have hinv : atMostOneActive storeReady := by
    intro u c
    exact Nat.le_trans (List.length_filter_le _ _) (by simp [storeReady])
  exact ⟨hinv, c5_conversation_reuse_create_raises storeReady 5 7 2 1 hinv⟩

/-- C7: the context handed to the collaborator is the persona primer,
then the conversation history — the messages of the conversation sorted by
timestamp ascending (an explicit sort, a permutation of the stored
messages, so each appears exactly once) mapped to the roles
`user`/`model` — then the current inbound content as the final turn. -/
theorem c7_context_primer_sorted_history_current (primer : List GeminiMsg)
    (st : Store) (cid : Nat) (cur : String) (hcid : cid ≠ 0) :
    geminiContext primer st cid cur
      = primer ++ getConversationHistoryForGemini st cid
          ++ [{ role := "user", parts := [cur] }] ∧
    getConversationHistoryForGemini st cid
      = (sortByTimestamp (convMessages st cid)).map toGeminiMsg ∧
    List.Pairwise timestampLE (sortByTimestamp (convMessages st cid)) ∧
    List.Perm (sortByTimestamp (convMessages st cid)) (convMessages st cid) ∧
    (∀ genContent, generateResponse primer true genContent st cid cur =
      (match genContent (geminiContext primer st cid cur) with
       | Except.ok t => t
       | Except.error _ => fallbackText)) := by
  refine ⟨?_, rfl, sortByTimestamp_pairwise _, sortByTimestamp_perm _, ?_⟩
  · simp only [geminiContext]
    rw [if_pos hcid]
    by_cases he : (getConversationHistoryForGemini st cid).isEmpty
    · rw [if_pos he]
      rw [List.isEmpty_iff.mp he]
      simp
    · rw [if_neg he]
  · intro genContent
    rfl

/-- C7 witness: with a store whose conversation 1 was inserted out of
timestamp order, the context is the primer, the history sorted ascending,
then the current content. -/
theorem c7_witness :
    (1 : Nat) ≠ 0 ∧
    (geminiContext [{ role := "user", parts := ["persona"] }] storeSkewed 1 "how much"
       = [{ role := "user", parts := ["persona"] }]
           ++ getConversationHistoryForGemini storeSkewed 1
           ++ [{ role := "user", parts := ["how much"] }] ∧
     getConversationHistoryForGemini storeSkewed 1
       = (sortByTimestamp (convMessages storeSkewed 1)).map toGeminiMsg ∧
     List.Pairwise timestampLE (sortByTimestamp (convMessages storeSkewed 1)) ∧
     List.Perm (sortByTimestamp (convMessages storeSkewed 1)) (convMessages storeSkewed 1) ∧
     (∀ genContent,
       generateResponse [{ role := "user", parts := ["persona"] }] true genContent
           storeSkewed 1 "how much" =
         (match genContent (geminiContext [{ role := "user", parts := ["persona"] }]
             storeSkewed 1 "how much") with
          | Except.ok t => t
          | Except.error _ => fallbackText))) :=
  ⟨by decide,
   c7_context_primer_sorted_history_current [{ role := "user", parts := ["persona"] }]
     storeSkewed 1 "how much" (by decide)⟩

/-- C8 amended: when the collaborator call raises, `generate_response`
itself returns the static fallback string instead of propagating; but the
handler records no outbound bot Message row and returns no 200 — it
raises `TypeError` while recording the inbound message, before the AI is
ever consulted (the conclusion holds for every collaborator `gen`), so
the record-fallback-and-relay tail of the claim is unreachable. -/
theorem c8_fallback_text_but_no_record :
    (∀ (primer : List GeminiMsg) (st : Store) (cid : Nat) (cur e : String),
      generateResponse primer true (fun _ => Except.error e) st cid cur
        = fallbackText) ∧
    (∀ (cl : Option String) (primer : List GeminiMsg)
       (gen : List GeminiMsg → Except String String)
       (st : Store) (now : Nat) (msg : InboundTextMessage)
       (c : Company) (u : WhatsappUser) (k : Conversation),
      st.companies.find? (fun x => x.name == "My Bot Company") = Option.some c →
      st.users.find? (fun x => x.waId == msg.fromNumber && x.companyId == c.id)
        = Option.some u →
      u.name = msg.userName →
      st.conversations.find?
        (fun x => x.userId == u.id && x.companyId == c.id && x.status == "active")
        = Option.some k →
      firstMeetingKeyword (toLowerAscii msg.body) = Option.none →
      processTextMessage ⟨cl, true, gen, primer⟩ st now msg
        = (Except.error PyErr.typeError, st,
           [Action.recordUserCall msg.body msg.metaMessageId])) := by
  constructor
  · intro primer st cid cur e
    rfl
  · intro cl primer gen st now msg c u k hcomp huser hname hconv hkw
    simp only [processTextMessage, getOrCreateDefaultCompany_found hcomp,
      getOrCreateWhatsappUser_found_same huser hname,
      getOrCreateConversation_found hconv, hkw, recordMessageCalled, recordMessage]

/-- C8 witness: the fallback string at a concrete failing collaborator,
and the handler crash — with no bot row and no AI invocation — at a
concrete store and message. -/
theorem c8_witness :
    generateResponse [] true (fun _ => Except.error "rate limited") storeReady 3
      "hello there" = fallbackText ∧
    processTextMessage ⟨Option.none, true, fun _ => Except.error "rate limited", []⟩
        storeReady 5 msg0
      = (Except.error PyErr.typeError, storeReady,
         [Action.recordUserCall msg0.body msg0.metaMessageId]) :=
  ⟨c8_fallback_text_but_no_record.1 [] storeReady 3 "hello there" "rate limited",
   c8_fallback_text_but_no_record.2 Option.none []
     (fun _ => Except.error "rate limited") storeReady 5 msg0
     ⟨1, "My Bot Company"⟩ ⟨2, "27820000001", 1, "Thandi"⟩ ⟨3, 2, 1, 0, "active"⟩
     (by decide) (by decide) (by decide) (by decide) (by decide)⟩

/-- C9 amended: `get_or_create_whatsapp_user` looks up by
`(wa_id, company_id)`; when found with a differing display name it
updates the stored name (last-write-wins), returning the user with id,
wa id and company id unchanged; when absent it raises `TypeError` and
creates nothing (and the module could not even have loaded: the import
names `WhatsAppUser`, unbound in `app.models`); in no branch does it
touch the statistics, and `update_bot_statistic_recipients` — uncalled
anyway — itself raises `AttributeError` on a present statistics row. -/
theorem c9_resolve_user_semantics (st : Store) (waId name : String) (cid : Nat) :
    ((getOrCreateWhatsappUser st waId name cid).2.stats = st.stats) ∧
    (∀ u, st.users.find? (fun x => x.waId == waId && x.companyId == cid)
        = Option.some u → u.name ≠ name →
      (getOrCreateWhatsappUser st waId name cid).1
        = Except.ok ⟨u.id, u.waId, u.companyId, name⟩) ∧
    (∀ u, st.users.find? (fun x => x.waId == waId && x.companyId == cid)
        = Option.some u → u.name = name →
      getOrCreateWhatsappUser st waId name cid = (Except.ok u, st)) ∧
    (st.users.find? (fun x => x.waId == waId && x.companyId == cid)
        = Option.none →
      getOrCreateWhatsappUser st waId name cid = (Except.error PyErr.typeError, st)) ∧
    (∀ s, st.stats.find? (fun x => x.companyId == cid) = Option.some s →
      updateBotStatisticRecipients st cid
        = (Except.error PyErr.attributeError, st)) := by
  refine ⟨?_, ?_, ?_, ?_, ?_⟩
  · cases h : st.users.find? (fun x => x.waId == waId && x.companyId == cid) with
    | some u =>
        by_cases hn : u.name ≠ name
        · simp [getOrCreateWhatsappUser, h, hn]
        · simp [getOrCreateWhatsappUser, h, hn]
    | none => simp [getOrCreateWhatsappUser, h]
  · intro u h hn
    simp [getOrCreateWhatsappUser, h, hn]
  · intro u h hn
    simp [getOrCreateWhatsappUser, h, hn]
  · intro h
    simp [getOrCreateWhatsappUser, h]
  · intro s h
    simp [updateBotStatisticRecipients, getBotStatisticForCompany, h]

/-- C9 witness: at a concrete store the statistics stay untouched, the
absent-user branch raises, and the recipients update raises on a present
statistics row. -/
theorem c9_witness :
    (getOrCreateWhatsappUser storeWithStat "27820000002" "Sipho" 7).2.stats
      = storeWithStat.stats ∧
    getOrCreateWhatsappUser storeWithStat "27820000002" "Sipho" 7
      = (Except.error PyErr.typeError, storeWithStat) ∧
    updateBotStatisticRecipients storeWithStat 7
      = (Except.error PyErr.attributeError, storeWithStat) :=
  ⟨(c9_resolve_user_semantics storeWithStat "27820000002" "Sipho" 7).1,
   (c9_resolve_user_semantics storeWithStat "27820000002" "Sipho" 7).2.2.2.1 (by decide),
   (c9_resolve_user_semantics storeWithStat "27820000002" "Sipho" 7).2.2.2.2
     ⟨50, 7, 0, 0, 0, 0⟩ (by decide)⟩

/-- C10 amended: on the meeting-keyword handover path with the booking
link configured, the conversion-event write is attempted strictly before
the record/dedup step — it is the first and, as it turns out, only
ledger call, issued for an arbitrary store without consulting the
message table — but the write itself raises `TypeError`, so no
ConversionEvent row is ever recorded and the handler crashes there,
leaving the store unchanged. -/
theorem c10_event_write_first_but_raises (env : Env) (st : Store) (now : Nat)
    (msg : InboundTextMessage) (link kw : String)
    (c : Company) (u : WhatsappUser) (k : Conversation)
    (hcl : env.calendlyLink = Option.some link)
    (hkw : firstMeetingKeyword (toLowerAscii msg.body) = Option.some kw)
    (hcomp : st.companies.find? (fun x => x.name == "My Bot Company") = Option.some c)
    (huser : st.users.find? (fun x => x.waId == msg.fromNumber && x.companyId == c.id)
      = Option.some u)
    (hname : u.name = msg.userName)
    (hconv : st.conversations.find?
      (fun x => x.userId == u.id && x.companyId == c.id && x.status == "active")
      = Option.some k) :
    processTextMessage env st now msg
      = (Except.error PyErr.typeError, st,
         [Action.recordEventCall "meeting_scheduled_calendly"]) := by
  simp only [processTextMessage, getOrCreateDefaultCompany_found hcomp,
    getOrCreateWhatsappUser_found_same huser hname,
    getOrCreateConversation_found hconv, hkw, hcl, recordConversionEvent]

/-- C10 witness: the crash-before-dedup trace at a concrete store and
keyword-matching message. -/
theorem c10_witness :
    firstMeetingKeyword (toLowerAscii msgMeeting.body)
      = Option.some "book a meeting" ∧
    processTextMessage envLink storeReady 5 msgMeeting
      = (Except.error PyErr.typeError, storeReady,
         [Action.recordEventCall "meeting_scheduled_calendly"]) :=
  ⟨by decide,
   c10_event_write_first_but_raises envLink storeReady 5 msgMeeting
     "https://calendly.example/30min" "book a meeting"
     ⟨1, "My Bot Company"⟩ ⟨2, "27820000001", 1, "Thandi"⟩ ⟨3, 2, 1, 0, "active"⟩
     rfl (by decide) (by decide) (by decide) (by decide) (by decide)⟩

end Zappies
